import Mathlib

/-!
Shallow embedding of the NexusCtrl relay hub (`src/backend/app.py`) and its
monitoring agent (`src/backend/agent.py`).

Modelling conventions:
* Python dicts become association lists (`lookupA` / `updateA` / `eraseA`);
  Python sets of websockets become duplicate-free lists of transport handles.
* A websocket transport is identified by a `Nat` handle; a payload already
  parsed from JSON is treated as one opaque value (`Payload`), since the hub
  never inspects it beyond `json.loads` / re-serialisation.
* Fallible OS reads (psutil, ImageGrab) are `Except String` values supplied by
  an `OsEnv`; a raised Python exception is the `.error` case and exception
  propagation is the `Except` bind. Float quantities (cpu/ram percentages) are
  carried as scaled integers; the float rounding itself is not modelled, only
  the data flow of the values.
-/

namespace NexusCtrl

/-- Server identifiers are the integer `sid` path parameters of the hub. -/
abbrev ServerId := Int

/-- A websocket transport handle, identified by object identity. -/
abbrev Transport := Nat

/-- A JSON payload, treated as one opaque value (the hub applies no schema). -/
abbrev Payload := String

/-- Dict lookup: `d.get(k)` / `k in d` on a Python dict modelled as an
association list. -/
def lookupA {α : Type} (l : List (ServerId × α)) (k : ServerId) : Option α :=
  match l with
  | [] => none
  | (a, b) :: rest => if a = k then some b else lookupA rest k

/-- Dict assignment `d[k] = v`: replaces the binding if the key is present,
otherwise appends a new binding. -/
def updateA {α : Type} (l : List (ServerId × α)) (k : ServerId) (v : α) :
    List (ServerId × α) :=
  match l with
  | [] => [(k, v)]
  | (a, b) :: rest =>
      if a = k then (k, v) :: rest else (a, b) :: updateA rest k v

/-- Dict removal `d.pop(k, None)`: drops every binding of the key (a Python
dict holds at most one). -/
def eraseA {α : Type} (l : List (ServerId × α)) (k : ServerId) :
    List (ServerId × α) :=
  l.filter (fun p => p.1 ≠ k)

theorem lookupA_updateA_self {α : Type} (l : List (ServerId × α)) (k : ServerId)
    (v : α) : lookupA (updateA l k v) k = some v := by
  induction l with
  | nil => simp [updateA, lookupA]
  | cons hd tl ih =>
      obtain ⟨a, b⟩ := hd
      by_cases h : a = k
      · simp [updateA, lookupA, h]
      · simp [updateA, lookupA, h, ih]

theorem lookupA_eraseA_self {α : Type} (l : List (ServerId × α)) (k : ServerId) :
    lookupA (eraseA l k) k = none := by
  induction l with
  | nil => simp [eraseA, lookupA]
  | cons hd tl ih =>
      obtain ⟨a, b⟩ := hd
      by_cases h : a = k
      · simpa [eraseA, lookupA, h] using ih
      · simpa [eraseA, lookupA, h] using ih

theorem eraseA_eraseA {α : Type} (l : List (ServerId × α)) (k : ServerId) :
    eraseA (eraseA l k) k = eraseA l k := by
  simp [eraseA, List.filter_filter]

theorem lookupA_updateA_of_ne {α : Type} (l : List (ServerId × α))
    (k k' : ServerId) (v : α) (h : k' ≠ k) :
    lookupA (updateA l k v) k' = lookupA l k' := by
  induction l with
  | nil => simp [updateA, lookupA, Ne.symm h]
  | cons hd tl ih =>
      obtain ⟨a, b⟩ := hd
      by_cases ha : a = k
      · subst ha
        simp [updateA, lookupA, Ne.symm h]
      · by_cases ha' : a = k'
        · subst ha'
          simp [updateA, lookupA, ha]
        · simp [updateA, lookupA, ha, ha', ih]

/-- If the key already maps to exactly this value, reassigning it leaves the
dict unchanged. -/
theorem updateA_self {α : Type} (l : List (ServerId × α)) (k : ServerId)
    (v : α) (h : lookupA l k = some v) : updateA l k v = l := by
  induction l with
  | nil => simp [lookupA] at h
  | cons hd tl ih =>
      obtain ⟨a, b⟩ := hd
      by_cases ha : a = k
      · subst ha
        simp [lookupA] at h
        simp [updateA, h]
      · simp [lookupA, ha] at h
        simp [updateA, ha, ih h]

/-! ### app.py — `Settings` and `MetricsConnectionManager` -/

namespace Settings

/-- `Settings.AGENT_SECRET` (app.py line 36): the shared secret the hub checks
agent handshakes against. -/
def AGENT_SECRET : String := "nexusctrl-agent-secret"

end Settings

/-- Hub-side connection registry (app.py lines 415-418):
`client_connections : Dict[int, Set[WebSocket]]` maps a server id to its
viewer transports; `agent_connections : Dict[int, WebSocket]` maps a server id
to its single agent transport. -/
structure MetricsConnectionManager where
  client_connections : List (ServerId × List Transport)
  agent_connections : List (ServerId × Transport)
deriving DecidableEq, Repr

/-- `connect_agent` (app.py lines 430-432): registers the transport as the
sole agent for the server id, replacing any prior one. (The transport-level
`websocket.accept()` has no registry effect and is not modelled.) -/
def connect_agent (m : MetricsConnectionManager) (websocket : Transport)
    (server_id : ServerId) : MetricsConnectionManager :=
  { m with agent_connections := updateA m.agent_connections server_id websocket }

/-- `disconnect_agent` (app.py lines 434-435):
`self.agent_connections.pop(server_id, None)` — removes the agent binding for
the server id unconditionally (no check of which transport is registered). -/
def disconnect_agent (m : MetricsConnectionManager) (server_id : ServerId) :
    MetricsConnectionManager :=
  { m with agent_connections := eraseA m.agent_connections server_id }

/-- Outcome of one `broadcast_to_clients` call: the registry afterwards, the
`(viewer, data)` pairs whose `send_json` succeeded, and the list of viewers a
send was attempted on (one entry per attempt). -/
structure BroadcastResult where
  state : MetricsConnectionManager
  delivered : List (Transport × Payload)
  attempts : List Transport
deriving DecidableEq, Repr

/-- `broadcast_to_clients` (app.py lines 437-443), with `send ws = true` iff
`ws.send_json` succeeds on that viewer: when the server id has a viewer set,
attempt one send per viewer, collect the failing ones in `dead`, then discard
every member of `dead` from the set; otherwise do nothing. -/
def broadcast_to_clients (send : Transport → Bool)
    (m : MetricsConnectionManager) (server_id : ServerId) (data : Payload) :
    BroadcastResult :=
  match lookupA m.client_connections server_id with
  | none => ⟨m, [], []⟩
  | some viewers =>
      let dead := viewers.filter (fun ws => !send ws)
      let delivered := (viewers.filter (fun ws => send ws)).map
        (fun ws => (ws, data))
      let remaining := viewers.filter (fun ws => !dead.contains ws)
      ⟨{ m with client_connections :=
           updateA m.client_connections server_id remaining },
       delivered, viewers⟩

/-! ### app.py — websocket endpoints -/

/-- The per-message body of `ws_metrics` (app.py lines 653-654): if an agent
transport is registered for the server id, forward the (parsed) viewer message
to it; otherwise nothing happens. Returns the registry afterwards and the
send performed, if any. -/
def ws_metrics_relay (m : MetricsConnectionManager) (sid : ServerId)
    (msg : Payload) : MetricsConnectionManager × Option (Transport × Payload) :=
  match lookupA m.agent_connections sid with
  | some agent_ws => (m, some (agent_ws, msg))
  | none => (m, none)

/-- An agent's first message as the hub sees it (app.py line 662):
either `json.loads`/`receive_text` raised (`malformed`) or it parsed and
`.get("secret")` produced the given optional secret string. -/
inductive HandshakeMsg where
  | malformed
  | parsed (secret : Option String)
deriving DecidableEq, Repr

/-- Outcome of the admission prefix of `ws_agent`: the registry afterwards and
`some 4001` when the hub closed the transport with rejection code 4001. -/
structure AdmissionResult where
  state : MetricsConnectionManager
  closeCode : Option Nat
deriving DecidableEq, Repr

/-- The admission prefix of `ws_agent` (app.py lines 659-665): if the first
message is malformed or its secret differs from `settings.AGENT_SECRET`, close
with code 4001 and return without touching the registry; otherwise register
the transport via `metrics_manager.agent_connections[sid] = websocket`. -/
def ws_agent_admission (m : MetricsConnectionManager) (sid : ServerId)
    (websocket : Transport) (msg : HandshakeMsg) : AdmissionResult :=
  match msg with
  | .malformed => ⟨m, some 4001⟩
  | .parsed s =>
      if s ≠ some Settings.AGENT_SECRET then ⟨m, some 4001⟩
      else ⟨{ m with agent_connections :=
                updateA m.agent_connections sid websocket }, none⟩

/-- The per-telemetry-message body of the `ws_agent` streaming loop
(app.py lines 667-669): every received message is broadcast verbatim to the
server id's viewers. -/
def ws_agent_stream_step (send : Transport → Bool)
    (m : MetricsConnectionManager) (sid : ServerId) (data : Payload) :
    BroadcastResult :=
  broadcast_to_clients send m sid data

/-! ### agent.py — the monitoring agent -/

namespace AgentPy

/-- `AGENT_SECRET` (agent.py line 11): the secret the agent sends in its
handshake. -/
def AGENT_SECRET : String := "dev-secret-key-change-me"

end AgentPy

/-- The psutil exceptions caught per process in `get_processes`
(agent.py line 26). -/
inductive PsErr where
  | noSuchProcess
  | accessDenied
  | zombieProcess
deriving DecidableEq, Repr

/-- One successfully read `proc.info` record (agent.py lines 19-25); cpu and
ram percentages are carried as scaled integers (tenths of a percent, i.e. the
value after `round(_, 1)`). -/
structure ProcInfo where
  pid : Int
  name : String
  user : String
  cpu : Int
  ram : Int
deriving DecidableEq, Repr

/-- The loop body of `get_processes` (agent.py lines 16-27): each enumerated
process either yields its info record or raises one of the caught psutil
exceptions, which `continue`s (the process is skipped). -/
def collectProcs : List (Except PsErr ProcInfo) → List ProcInfo
  | [] => []
  | .ok pinfo :: rest => pinfo :: collectProcs rest
  | .error _ :: rest => collectProcs rest

/-- `get_processes` (agent.py lines 14-29):
`sorted(procs, key=lambda x: x['cpu'], reverse=True)[:20]` — collect the
readable processes, sort by cpu descending (stable), keep the first 20. -/
def get_processes (iter : List (Except PsErr ProcInfo)) : List ProcInfo :=
  let procs := collectProcs iter
  (List.insertionSort (fun a b => b.cpu ≤ a.cpu) procs).take 20

/-- Whether one character list occurs contiguously inside another: the
Python `in` test on strings. -/
def charsContain (hay pat : List Char) : Bool :=
  match hay with
  | [] => pat.isEmpty
  | _ :: rest => pat.isPrefixOf hay || charsContain rest pat

/-- The Python substring test `pat in s`. -/
def strContains (s pat : String) : Bool :=
  charsContain s.toList pat.toList

/-- Result dict of `capture_screen` (agent.py lines 41-47):
`data` (data-URI string or None), `status` (ok / locked / error), and the
optional `error` message. -/
structure SSResult where
  data : Option String
  status : String
  error : Option String
deriving DecidableEq, Repr

/-- `capture_screen` (agent.py lines 31-47), over an `ImageGrab.grab` outcome:
on success, the encoded image with status ok; on an exception whose lowered
message mentions a failed screen grab or an invalid handle, the locked
placeholder; on any other exception, status error with the message. (Image
thumbnailing and JPEG/base64 encoding are folded into the `.ok` payload.) -/
def capture_screen (grab : Except String String) : SSResult :=
  match grab with
  | .ok img_str =>
      { data := some ("data:image/jpeg;base64," ++ img_str),
        status := "ok", error := none }
  | .error e =>
      let emsg := String.map Char.toLower e
      if strContains emsg "screen grab failed" || strContains emsg "handle" then
        { data := none, status := "locked",
          error := some "RDP Session Disconnected (Desktop Locked)" }
      else
        { data := none, status := "error", error := some e }

/-- The OS facilities one `collect_metrics` call reads, each fallible the way
the underlying Python call is: `.error` is a raised exception. Network
counters are `(bytes_recv, bytes_sent)` already converted to hundredths of a
MB (the float division and `round(_, 2)` are not modelled). -/
structure OsEnv where
  cpu_percent : Except String Int
  virtual_memory_percent : Except String Int
  net_io_counters : Except String (Int × Int)
  process_results : List (Except PsErr ProcInfo)
  grab : Except String String
  now_hms : String
  now_iso : String
deriving Repr

/-- One telemetry snapshot as built by `collect_metrics` (agent.py lines
59-74). The three screenshot fields are `none` when absent from the dict;
`screenshot = some none` means the key is present with value `None`. -/
structure Metrics where
  time : String
  cpu : Int
  ram : Int
  net_rx : Int
  net_tx : Int
  processes : List ProcInfo
  status : String
  timestamp : String
  screenshot : Option (Option String)
  screenshot_status : Option String
  screenshot_error : Option (Option String)
deriving DecidableEq, Repr

/-- `collect_metrics` (agent.py lines 49-76): read cpu, ram and network
counters (an exception in any of these propagates out of the function),
enumerate processes via `get_processes`, assemble the snapshot, and only when
`include_screenshot` is set call `capture_screen` and attach its three
fields. -/
def collect_metrics (env : OsEnv) (include_screenshot : Bool) :
    Except String Metrics := do
  let cpu ← env.cpu_percent
  let ram ← env.virtual_memory_percent
  let net_stats ← env.net_io_counters
  let processes := get_processes env.process_results
  let metrics : Metrics :=
    { time := env.now_hms, cpu := cpu, ram := ram,
      net_rx := net_stats.1, net_tx := net_stats.2,
      processes := processes, status := "online", timestamp := env.now_iso,
      screenshot := none, screenshot_status := none, screenshot_error := none }
  if include_screenshot then
    let ss_result := capture_screen env.grab
    pure { metrics with
            screenshot := some ss_result.data,
            screenshot_status := some ss_result.status,
            screenshot_error := some ss_result.error }
  else
    pure metrics

/-- The screenshot cadence of the publish loop (agent.py line 117):
`take_ss = (counter % 5 == 0)`. -/
def take_ss (counter : Nat) : Bool := counter % 5 == 0

/-- The first `n` iterations of the publish loop (agent.py lines 115-123):
tick `counter` samples `collect_metrics` with the cadence flag, each tick
against that tick's OS state. -/
def publish_snapshots (env : Nat → OsEnv) (n : Nat) :
    List (Except String Metrics) :=
  (List.range n).map (fun counter => collect_metrics (env counter) (take_ss counter))

/-- Whether an emitted publish-loop message carries a non-null screenshot
field. -/
def has_screenshot : Except String Metrics → Bool
  | .ok m =>
      match m.screenshot with
      | some (some _) => true
      | _ => false
  | .error _ => false

/-- One inbound command message as `handle_commands` sees it after
`json.loads` (agent.py line 82): either parsing raised, or it yielded a dict
whose `.get("action")` and `.get("pid")` are as given (`none` for a missing
or null key). -/
structure CmdMsg where
  action : Option String
  pid : Option Int
deriving DecidableEq, Repr

/-- What one iteration of the command loop does to the OS. -/
inductive AgentAction where
  | killAttempt (pid : Int)
  | noOp
deriving DecidableEq, Repr

/-- The per-message body of `handle_commands` (agent.py lines 81-94): a
malformed message is caught and logged; a kill command creates a
`psutil.Process(pid)` and terminates it only when `if pid:` holds, i.e. the
pid is present, non-null and non-zero; every other action is ignored. -/
def handle_command (msg : Except String CmdMsg) : AgentAction :=
  match msg with
  | .error _ => .noOp
  | .ok command =>
      if command.action = some "kill" then
        match command.pid with
        | some pid => if pid ≠ 0 then .killAttempt pid else .noOp
        | none => .noOp
      else .noOp

/-- `handle_commands` (agent.py lines 78-96) over the whole inbound message
stream: each message is handled in turn; no message aborts the loop. -/
def handle_commands (msgs : List (Except String CmdMsg)) : List AgentAction :=
  msgs.map handle_command

/-! ### Helper lemmas -/

/-- The viewer set the registry currently holds for a server id (empty when
the key is absent). -/
def viewersOf (m : MetricsConnectionManager) (S : ServerId) : List Transport :=
  (lookupA m.client_connections S).getD []

theorem broadcast_attempts_eq (send : Transport → Bool)
    (m : MetricsConnectionManager) (S : ServerId) (p : Payload) :
    (broadcast_to_clients send m S p).attempts = viewersOf m S := by
  unfold broadcast_to_clients viewersOf
  rcases lookupA m.client_connections S with _ | vs <;> rfl

theorem capture_screen_error_data (e : String) :
    (capture_screen (Except.error e)).data = none := by
  simp only [capture_screen]
  split <;> rfl

/-- Every entry produced by the `get_processes` loop body comes from a
successful per-process read. -/
theorem mem_collectProcs {p : ProcInfo} :
    ∀ {iter : List (Except PsErr ProcInfo)},
      p ∈ collectProcs iter → Except.ok p ∈ iter := by
  intro iter
  induction iter with
  | nil => intro h; simp [collectProcs] at h
  | cons hd tl ih =>
      cases hd with
      | ok q =>
          intro h
          rcases (by simpa [collectProcs] using h : p = q ∨ p ∈ collectProcs tl) with
            h' | h'
          · simp [h']
          · exact List.mem_cons_of_mem _ (ih h')
      | error e =>
          intro h
          exact List.mem_cons_of_mem _ (ih (by simpa [collectProcs] using h))

instance : IsTotal ProcInfo (fun a b => b.cpu ≤ a.cpu) :=
  ⟨fun a b => le_total b.cpu a.cpu⟩

instance : IsTrans ProcInfo (fun a b => b.cpu ≤ a.cpu) :=
  ⟨fun _ _ _ h1 h2 => le_trans h2 h1⟩

/-- All the fallible OS reads of one tick succeed. -/
def envHealthy (e : OsEnv) : Prop :=
  (∃ v, e.cpu_percent = .ok v) ∧ (∃ v, e.virtual_memory_percent = .ok v) ∧
  (∃ v, e.net_io_counters = .ok v) ∧ (∃ s, e.grab = .ok s)

/-- On a tick whose OS reads all succeed, the emitted snapshot carries a
non-null screenshot exactly when the cadence flag was set. -/
theorem has_screenshot_collect (e : OsEnv) (b : Bool) (h : envHealthy e) :
    has_screenshot (collect_metrics e b) = b := by
  obtain ⟨⟨cv, hc⟩, ⟨rv, hr⟩, ⟨nv, hn⟩, ⟨sv, hg⟩⟩ := h
  cases b <;>
    simp [collect_metrics, has_screenshot, capture_screen, hc, hr, hn, hg,
      Bind.bind, Except.bind, Pure.pure, Except.pure]

/-! ### Claims -/

/-- C1, counterexample: with transport 10 superseded by transport 20 for
server 1, the stale `disconnect_agent` issued on behalf of transport 10
does not leave transport 20 registered — the registry ends with no agent for
server 1 at all. -/
theorem C1_stale_disconnect_evicts :
    lookupA (disconnect_agent
        (connect_agent (connect_agent ⟨[], []⟩ 10 1) 20 1) 1).agent_connections 1
      = none := by decide

/-- C1 (amended): `disconnect_agent S` is idempotent, but it removes the
agent mapping for S unconditionally — it takes no transport argument and
performs no check that the caller's transport is the currently-registered
one, so a stale disconnect issued on behalf of a superseded transport evicts
the newer registration. -/
theorem C1_disconnect_agent_unconditional (m : MetricsConnectionManager)
    (S : ServerId) (t1 t2 : Transport) :
    disconnect_agent (disconnect_agent m S) S = disconnect_agent m S ∧
    lookupA (disconnect_agent m S).agent_connections S = none ∧
    lookupA (disconnect_agent
        (connect_agent (connect_agent m t1 S) t2 S) S).agent_connections S
      = none := by
  refine ⟨?_, lookupA_eraseA_self _ _, lookupA_eraseA_self _ _⟩
  simp [disconnect_agent, eraseA_eraseA]

/-- C4: after transport t1 and then transport t2 are admitted as the agent
for server S, exactly t2 is the registered agent; relaying any payload for S
targets t2 and never t1, and broadcasting for S never attempts a send on t1
(t1 is an agent transport, not a member of S's viewer set). -/
theorem C4_admit_supersedes (m : MetricsConnectionManager) (S : ServerId)
    (t1 t2 : Transport) (p : Payload) (send : Transport → Bool)
    (hne : t1 ≠ t2) (hview : t1 ∉ viewersOf m S) :
    lookupA (connect_agent (connect_agent m t1 S) t2 S).agent_connections S
      = some t2 ∧
    ws_metrics_relay (connect_agent (connect_agent m t1 S) t2 S) S p
      = (connect_agent (connect_agent m t1 S) t2 S, some (t2, p)) ∧
    (∀ q, (ws_metrics_relay (connect_agent (connect_agent m t1 S) t2 S) S q).2
        ≠ some (t1, q)) ∧
    t1 ∉ (broadcast_to_clients send
        (connect_agent (connect_agent m t1 S) t2 S) S p).attempts := by
  have hlook : lookupA (connect_agent (connect_agent m t1 S) t2 S).agent_connections S
      = some t2 := lookupA_updateA_self _ _ _
  refine ⟨hlook, ?_, ?_, ?_⟩
  · simp [ws_metrics_relay, hlook]
  · intro q
    simp [ws_metrics_relay, hlook]
    exact fun h => absurd h.symm hne
  · rw [broadcast_attempts_eq]
    exact hview

/-- C4 witness. -/
theorem C4_witness :
    lookupA (connect_agent
        (connect_agent ⟨[(1, [3])], []⟩ 10 1) 20 1).agent_connections 1
      = some 20 :=
  (C4_admit_supersedes ⟨[(1, [3])], []⟩ 1 10 20 "x" (fun _ => true)
    (by decide) (by decide)).1

/-- C5: one `broadcast_to_clients` call on a server whose viewer set holds one
always-failing and one always-succeeding transport delivers the payload to
the succeeding viewer, removes the failing viewer from the set, attempts the
failing viewer exactly once, and with zero registered viewers the call is a
no-op. -/
theorem C5_broadcast_partial_failure (send : Transport → Bool)
    (m : MetricsConnectionManager) (S : ServerId) (p : Payload)
    (t_fail t_succ : Transport) (hne : t_fail ≠ t_succ)
    (hf : send t_fail = false) (hs : send t_succ = true)
    (hv : lookupA m.client_connections S = some [t_fail, t_succ]) :
    (broadcast_to_clients send m S p).delivered = [(t_succ, p)] ∧
    lookupA (broadcast_to_clients send m S p).state.client_connections S
      = some [t_succ] ∧
    (broadcast_to_clients send m S p).attempts.count t_fail = 1 ∧
    (∀ m' S' p', lookupA m'.client_connections S' = none →
        broadcast_to_clients send m' S' p' = ⟨m', [], []⟩) := by
  refine ⟨?_, ?_, ?_, ?_⟩
  · simp [broadcast_to_clients, hv, hf, hs]
  · simp only [broadcast_to_clients, hv]
    simp [hf, hs, List.contains, Ne.symm hne, lookupA_updateA_self]
  · simp [broadcast_to_clients, hv, List.count_cons, hne, Ne.symm hne]
  · intro m' S' p' h
    simp [broadcast_to_clients, h]

/-- C5 witness. -/
theorem C5_witness :
    (broadcast_to_clients (fun t => t == 2) ⟨[(1, [7, 2])], []⟩ 1 "pay").delivered
      = [(2, "pay")] :=
  (C5_broadcast_partial_failure (fun t => t == 2) ⟨[(1, [7, 2])], []⟩ 1 "pay"
    7 2 (by decide) (by decide) (by decide) (by decide)).1

/-- C6: relaying a viewer message leaves the registry state unchanged in every
case; when no agent transport is registered for the server id it performs no
send at all, and when one is registered it forwards exactly the given payload
to exactly that transport. -/
theorem C6_relay_verbatim_or_noop (m : MetricsConnectionManager)
    (S : ServerId) (p : Payload) :
    (ws_metrics_relay m S p).1 = m ∧
    (lookupA m.agent_connections S = none → ws_metrics_relay m S p = (m, none)) ∧
    (∀ t, lookupA m.agent_connections S = some t →
        ws_metrics_relay m S p = (m, some (t, p))) := by
  refine ⟨?_, ?_, ?_⟩
  · unfold ws_metrics_relay
    rcases lookupA m.agent_connections S with _ | t <;> rfl
  · intro h; simp [ws_metrics_relay, h]
  · intro t h; simp [ws_metrics_relay, h]

/-- C6 witness. -/
theorem C6_witness :
    ws_metrics_relay ⟨[(1, [7])], []⟩ 1 "cmd" = (⟨[(1, [7])], []⟩, none) :=
  (C6_relay_verbatim_or_noop ⟨[(1, [7])], []⟩ 1 "cmd").2.1 (by decide)

/-- C7: an agent whose first handshake message is malformed or carries a
secret different from the configured `Settings.AGENT_SECRET` is closed
immediately with code 4001 and the registry is left untouched — no
AgentSession is ever registered for that server id. -/
theorem C7_handshake_rejection (m : MetricsConnectionManager)
    (sid : ServerId) (websocket : Transport) (s : Option String)
    (h : s ≠ some Settings.AGENT_SECRET) :
    ws_agent_admission m sid websocket (.parsed s) = ⟨m, some 4001⟩ ∧
    ws_agent_admission m sid websocket .malformed = ⟨m, some 4001⟩ := by
  exact ⟨by simp [ws_agent_admission, h], rfl⟩

/-- C7 witness. -/
theorem C7_witness :
    ws_agent_admission ⟨[], []⟩ 1 50 (.parsed (some "bad")) = ⟨⟨[], []⟩, some 4001⟩ :=
  (C7_handshake_rejection ⟨[], []⟩ 1 50 (some "bad") (by decide)).1

/-- C3 (code bug): the secret hardcoded in the shipped agent
(`agent.py AGENT_SECRET = "dev-secret-key-change-me"`) differs from the
secret the hub checks against (`Settings.AGENT_SECRET =
"nexusctrl-agent-secret"`), so the shipped agent's handshake is closed with
code 4001 and no AgentSession is ever registered — the admitted-and-relayed
flow the claim describes never starts. -/
theorem C3_shipped_handshake_rejected :
    AgentPy.AGENT_SECRET = "dev-secret-key-change-me" ∧
    Settings.AGENT_SECRET = "nexusctrl-agent-secret" ∧
    ws_agent_admission ⟨[], []⟩ 1 50 (.parsed (some AgentPy.AGENT_SECRET))
      = ⟨⟨[], []⟩, some 4001⟩ ∧
    lookupA (ws_agent_admission ⟨[], []⟩ 1 50
        (.parsed (some AgentPy.AGENT_SECRET))).state.agent_connections 1
      = none := by
  refine ⟨rfl, rfl, ?_, ?_⟩ <;> decide

/-- A tick on which the cpu counter read raises while everything else
succeeds. -/
def envCpuFail : OsEnv :=
  { cpu_percent := .error "cpu_percent read raised",
    virtual_memory_percent := .ok 500,
    net_io_counters := .ok (100, 200),
    process_results := [],
    grab := .ok "AAAA",
    now_hms := "12:00:00", now_iso := "2026-01-01T12:00:00" }

/-- C2, counterexample: a failure of the per-resource cpu read does raise past
`collect_metrics`' boundary — the whole call aborts with the exception
instead of returning a snapshot with the field degraded. -/
theorem C2_cpu_failure_aborts :
    collect_metrics envCpuFail true = .error "cpu_percent read raised" := rfl

/-- C2 (amended): `collect_metrics` degrades only the screenshot field (and,
via `get_processes`, per-process read failures): whenever the cpu, ram and
network reads succeed it returns a complete snapshot, with the screenshot
field present-but-null when capture failed on a screenshot tick; but a
failure of the cpu, ram or network counter read propagates out of the call
and aborts the snapshot. -/
theorem C2_degrade_vs_propagate (env : OsEnv) (b : Bool) :
    (∀ cpuV ramV netV,
        env.cpu_percent = .ok cpuV →
        env.virtual_memory_percent = .ok ramV →
        env.net_io_counters = .ok netV →
        ∃ mtr, collect_metrics env b = .ok mtr ∧
          (b = true → ∀ e, env.grab = .error e → mtr.screenshot = some none)) ∧
    (∀ e, env.cpu_percent = .error e → collect_metrics env b = .error e) ∧
    (∀ cpuV e, env.cpu_percent = .ok cpuV →
        env.virtual_memory_percent = .error e →
        collect_metrics env b = .error e) ∧
    (∀ cpuV ramV e, env.cpu_percent = .ok cpuV →
        env.virtual_memory_percent = .ok ramV →
        env.net_io_counters = .error e →
        collect_metrics env b = .error e) := by
  refine ⟨?_, ?_, ?_, ?_⟩
  · intro cpuV ramV netV hc hr hn
    cases b with
    | false =>
        refine ⟨{ time := env.now_hms, cpu := cpuV, ram := ramV,
                  net_rx := netV.1, net_tx := netV.2,
                  processes := get_processes env.process_results,
                  status := "online", timestamp := env.now_iso,
                  screenshot := none, screenshot_status := none,
                  screenshot_error := none }, ?_, ?_⟩
        · simp [collect_metrics, hc, hr, hn, Bind.bind, Except.bind,
            Pure.pure, Except.pure]
        · intro hb; cases hb
    | true =>
        refine ⟨{ time := env.now_hms, cpu := cpuV, ram := ramV,
                  net_rx := netV.1, net_tx := netV.2,
                  processes := get_processes env.process_results,
                  status := "online", timestamp := env.now_iso,
                  screenshot := some (capture_screen env.grab).data,
                  screenshot_status := some (capture_screen env.grab).status,
                  screenshot_error := some (capture_screen env.grab).error },
            ?_, ?_⟩
        · simp [collect_metrics, hc, hr, hn, Bind.bind, Except.bind,
            Pure.pure, Except.pure]
        · intro _ e hg
          simp [hg, capture_screen_error_data]
  · intro e hc
    simp [collect_metrics, hc, Bind.bind, Except.bind]
  · intro cpuV e hc hr
    simp [collect_metrics, hc, hr, Bind.bind, Except.bind]
  · intro cpuV ramV e hc hr hn
    simp [collect_metrics, hc, hr, hn, Bind.bind, Except.bind]

/-- A screenshot tick on which the screen grab raises but every counter read
succeeds. -/
def envGrabFail : OsEnv :=
  { cpu_percent := .ok 120,
    virtual_memory_percent := .ok 500,
    net_io_counters := .ok (100, 200),
    process_results := [],
    grab := .error "screen grab failed",
    now_hms := "12:00:00", now_iso := "2026-01-01T12:00:00" }

/-- C2 witness. -/
theorem C2_witness :
    ∃ mtr, collect_metrics envGrabFail true = .ok mtr ∧
      (true = true → ∀ e, envGrabFail.grab = .error e →
        mtr.screenshot = some none) :=
  (C2_degrade_vs_propagate envGrabFail true).1 120 500 (100, 200) rfl rfl rfl

/-- C8: over publish-loop ticks 0..9 with the code's cadence
`counter % 5 == 0`, a screenshot is requested exactly on ticks 0 and 5, and
when each tick's OS reads succeed exactly 2 of the 10 emitted snapshots (20%)
carry a non-null screenshot field. -/
theorem C8_screenshot_cadence (env : Nat → OsEnv)
    (h : ∀ t, t < 10 → envHealthy (env t)) :
    (List.range 10).filter take_ss = [0, 5] ∧
    (publish_snapshots env 10).countP has_screenshot = 2 := by
  constructor
  · decide
  · unfold publish_snapshots
    rw [List.countP_map]
    have hcong : List.countP
        (has_screenshot ∘ fun c => collect_metrics (env c) (take_ss c))
        (List.range 10)
        = List.countP (fun c => take_ss c) (List.range 10) := by
      apply List.countP_congr
      intro x hx
      have hx10 : x < 10 := List.mem_range.mp hx
      simp [Function.comp, has_screenshot_collect _ _ (h x hx10)]
    rw [hcong]
    decide

/-- A tick on which every OS read succeeds. -/
def envGood : OsEnv :=
  { cpu_percent := .ok 120,
    virtual_memory_percent := .ok 500,
    net_io_counters := .ok (100, 200),
    process_results := [],
    grab := .ok "AAAA",
    now_hms := "12:00:00", now_iso := "2026-01-01T12:00:00" }

/-- C8 witness. -/
theorem C8_witness :
    (List.range 10).filter take_ss = [0, 5] ∧
    (publish_snapshots (fun _ => envGood) 10).countP has_screenshot = 2 :=
  C8_screenshot_cadence (fun _ => envGood)
    (fun _ _ => ⟨⟨120, rfl⟩, ⟨500, rfl⟩, ⟨(100, 200), rfl⟩, ⟨"AAAA", rfl⟩⟩)

/-- C9: for every enumeration outcome, `get_processes` returns at most 20
entries, sorted by per-process cpu descending; every returned entry comes
from a successful per-process read, and a process whose read raised
contributes nothing to the result (it is silently skipped — the function is
total and never propagates those exceptions). -/
theorem C9_get_processes_shape (iter : List (Except PsErr ProcInfo)) :
    (get_processes iter).length ≤ 20 ∧
    List.Sorted (fun a b => b.cpu ≤ a.cpu) (get_processes iter) ∧
    (∀ p ∈ get_processes iter, Except.ok p ∈ iter) ∧
    (∀ e, get_processes (Except.error e :: iter) = get_processes iter) := by
  refine ⟨?_, ?_, ?_, ?_⟩
  · exact List.length_take_le _ _
  · exact List.Pairwise.sublist (List.take_sublist _ _)
      (List.sorted_insertionSort _ _)
  · intro p hp
    have h1 : p ∈ List.insertionSort (fun a b => b.cpu ≤ a.cpu)
        (collectProcs iter) := List.mem_of_mem_take hp
    have h2 : p ∈ collectProcs iter :=
      (List.perm_insertionSort _ _).subset h1
    exact mem_collectProcs h2
  · intro e; rfl

/-- A concrete process record used in the C9 witness. -/
def pSample : ProcInfo := ⟨42, "python", "root", 250, 10⟩

/-- C9 witness. -/
theorem C9_witness :
    Except.ok pSample ∈
      ([Except.error PsErr.accessDenied, Except.ok pSample] :
        List (Except PsErr ProcInfo)) :=
  (C9_get_processes_shape
      [Except.error PsErr.accessDenied, Except.ok pSample]).2.2.1
    pSample (by decide)

/-- C10: a parsed kill command whose pid is missing, null, or 0 fails the
Python truthiness test `if pid:` before any Process handle is created, so no
termination is attempted and the command loop goes on to handle the remaining
messages. -/
theorem C10_falsy_pid_ignored (command : CmdMsg)
    (rest : List (Except String CmdMsg))
    (hact : command.action = some "kill")
    (hpid : command.pid = none ∨ command.pid = some 0) :
    handle_command (Except.ok command) = AgentAction.noOp ∧
    handle_commands (Except.ok command :: rest)
      = AgentAction.noOp :: handle_commands rest := by
  have h1 : handle_command (Except.ok command) = AgentAction.noOp := by
    rcases hpid with h | h <;> simp [handle_command, hact, h]
  exact ⟨h1, by simp [handle_commands, h1]⟩

/-- C10 witness. -/
theorem C10_witness :
    handle_command (Except.ok ⟨some "kill", some 0⟩) = AgentAction.noOp ∧
    handle_commands [Except.ok ⟨some "kill", some 0⟩, Except.ok ⟨some "kill", some 9⟩]
      = AgentAction.noOp :: handle_commands [Except.ok ⟨some "kill", some 9⟩] :=
  C10_falsy_pid_ignored ⟨some "kill", some 0⟩
    [Except.ok ⟨some "kill", some 9⟩] rfl (Or.inr rfl)

end NexusCtrl
